import Mathlib

/-!
Shallow embedding of the QuickGPT server controllers and of the client
suggestion matcher, together with theorems checking the specification
claims against them.  Express `res.status(s).json(body)` is modelled as a
`HttpRes` value; `res.json(body)` alone carries the default status 200.
MongoDB collections are modelled as lists, and each controller returns the
updated database together with a trace of the externally visible actions it
performed (chat lookups, external API calls, chat saves, credit updates).
-/

namespace QuickGPT

/-- JSON values, as produced by Express `res.json`. -/
inductive JVal where
  | str (s : String)
  | num (n : Int)
  | bool (b : Bool)
  | arr (elems : List JVal)
  | obj (fields : List (String × JVal))

/-- Does a JSON object carry the key `k`? -/
def hasKey (k : String) : JVal → Bool
  | .obj fs => fs.any (fun p => p.fst = k)
  | _ => false

/-- An HTTP response: status code and JSON body. -/
structure HttpRes where
  status : Nat
  body : JVal

/-- A chat message (subdocument of `Chat`).  `isPublished` is `none` when the
object was built without that key, as the text reply is. -/
structure Msg where
  role : String
  content : String
  timestamp : Nat
  isImage : Bool
  isPublished : Option Bool
deriving DecidableEq

/-- A chat document: `_id`, owner, ordered message list. -/
structure Chat where
  _id : String
  userId : String
  messages : List Msg
deriving DecidableEq

/-- A user document: `_id` and credit balance. -/
structure User where
  _id : String
  credits : Int
deriving DecidableEq

/-- The persisted database state. -/
structure DB where
  chats : List Chat
  users : List User
deriving DecidableEq

/-- A transaction document, as created by `Transaction.create`. -/
structure Transaction where
  userId : String
  planId : String
  amount : Nat
  credits : Nat
  isPaid : Bool
deriving DecidableEq

/-! ## creditController.js -/

/-- A static plan entry. -/
structure Plan where
  _id : String
  name : String
  price : Nat
  credits : Nat
  features : List String
deriving DecidableEq

/-- The static in-memory plan list of `creditController.js`. -/
def plans : List Plan :=
  [ ⟨"basic", "Basic", 10, 100,
      ["100 text generations", "50 image generations", "Standard support",
       "Access to basic models"]⟩,
    ⟨"pro", "Pro", 20, 500,
      ["500 text generations", "200 image generations", "Priority support",
       "Access to pro models", "Faster response time"]⟩,
    ⟨"premium", "Premium", 30, 1000,
      ["1000 text generations", "500 image generations", "24/7 VIP support",
       "Access to premium models", "Dedicated account manager"]⟩ ]

/-- JSON serialisation of a plan. -/
def planJson (p : Plan) : JVal :=
  .obj [("_id", .str p._id), ("name", .str p.name),
        ("price", .num (Int.ofNat p.price)), ("credits", .num (Int.ofNat p.credits)),
        ("features", .arr (p.features.map JVal.str))]

/-- `getPlans`: responds `res.json({sucess: true, plans})` (the key is spelled
`sucess` in the source). -/
def getPlans : HttpRes :=
  ⟨200, .obj [("sucess", .bool true), ("plans", .arr (plans.map planJson))]⟩

/-- `purchasePlan`: looks up the plan by `_id`; on a miss responds
`{sucess:false, message:" Invalid plan "}`; otherwise creates an unpaid
transaction and, in the source, falls off the end of the handler without
responding.  `createErr` is `some e` when `Transaction.create` throws with
message `e` (handled by the catch branch).  Returns the response sent, if
any, and the list of transactions created. -/
def purchasePlan (userId planId : String) (createErr : Option String) :
    Option HttpRes × List Transaction :=
  match plans.find? (fun p => p._id = planId) with
  | none =>
      (some ⟨200, .obj [("sucess", .bool false), ("message", .str " Invalid plan ")]⟩, [])
  | some plan =>
      match createErr with
      | some e =>
          (some ⟨200, .obj [("sucess", .bool false), ("message", .str e)]⟩, [])
      | none =>
          (none, [⟨userId, plan._id, plan.price, plan.credits, false⟩])

/-! ## Claims C7, C10, C6 -/

/-- C7: purchasePlan called with a planId in {basic, pro, premium} creates
exactly one Transaction with that planId, amount equal to the static price
(10, 20, 30), credits equal to the static credits (100, 500, 1000), and
isPaid false; with any other planId it creates no Transaction and responds
with the invalid-plan error message. -/
theorem purchasePlan_plan_table :
    (∀ uid, purchasePlan uid "basic" none = (none, [⟨uid, "basic", 10, 100, false⟩]))
    ∧ (∀ uid, purchasePlan uid "pro" none = (none, [⟨uid, "pro", 20, 500, false⟩]))
    ∧ (∀ uid, purchasePlan uid "premium" none = (none, [⟨uid, "premium", 30, 1000, false⟩]))
    ∧ (∀ uid pid cerr, pid ≠ "basic" → pid ≠ "pro" → pid ≠ "premium" →
        purchasePlan uid pid cerr =
          (some ⟨200, .obj [("sucess", .bool false), ("message", .str " Invalid plan ")]⟩,
           [])) := by
  refine ⟨fun uid => rfl, fun uid => rfl, fun uid => rfl, ?_⟩
  intro uid pid cerr h1 h2 h3
  simp [purchasePlan, plans, List.find?, Ne.symm h1, Ne.symm h2, Ne.symm h3]

/-- Witness for C7: a concrete invalid plan id. -/
theorem purchasePlan_plan_table_witness :
    purchasePlan "u1" "gold" none =
      (some ⟨200, .obj [("sucess", .bool false), ("message", .str " Invalid plan ")]⟩, []) :=
  purchasePlan_plan_table.2.2.2 "u1" "gold" none (by decide) (by decide) (by decide)

/-- C10: when purchasePlan succeeds (valid planId, create does not throw) it
sends no HTTP response at all; only the invalid-plan branch and the catch
branch ever respond. -/
theorem purchasePlan_success_silent :
    (∀ uid pid plan, plans.find? (fun p => p._id = pid) = some plan →
        (purchasePlan uid pid none).fst = none)
    ∧ (∀ uid pid cerr r, (purchasePlan uid pid cerr).fst = some r →
        plans.find? (fun p => p._id = pid) = none ∨ ∃ e, cerr = some e) := by
  constructor
  · intro uid pid plan h
    simp [purchasePlan, h]
  · intro uid pid cerr r h
    cases hf : plans.find? (fun p => p._id = pid) with
    | none => exact Or.inl rfl
    | some p =>
        cases cerr with
        | none => simp [purchasePlan, hf] at h
        | some e => exact Or.inr ⟨e, rfl⟩

/-- Witness for C10: purchasing the basic plan sends no response. -/
theorem purchasePlan_success_silent_witness :
    (purchasePlan "u1" "basic" none).fst = none :=
  purchasePlan_success_silent.1 "u1" "basic"
    ⟨"basic", "Basic", 10, 100,
      ["100 text generations", "50 image generations", "Standard support",
       "Access to basic models"]⟩ rfl

/-! ## Message controllers (db.js lines 19-151) -/

/-- An externally visible action performed by a message controller, in
execution order. -/
inductive Event where
  | chatLookup (userId chatId : String)
  | extCall (api arg : String)
  | chatSave (chatId : String) (messages : List Msg)
  | creditDec (userId : String) (amount : Int)
deriving DecidableEq

/-- The request-derived data a message controller reads: the authenticated
user (`req.user._id`, `req.user.credits`) and the body fields.  A missing or
empty `chatId`/`prompt` is modelled by the empty string, matching the JS
falsiness test `!chatId || !prompt`. -/
structure Req where
  userId : String
  userCredits : Int
  chatId : String
  prompt : String
  isPublishedBody : Option Bool
deriving DecidableEq

/-- The message object of `choices[0]` in the completion response. -/
structure CMsg where
  role : String
  content : String
deriving DecidableEq

/-- Result of running a message controller: the response sent, the database
after the handler, and the action trace. -/
structure CtrlResult where
  response : HttpRes
  db : DB
  events : List Event

/-- `Chat.findOne({userId, _id: chatId})`. -/
def findChat (chats : List Chat) (userId chatId : String) : Option Chat :=
  chats.find? (fun c => c.userId = userId && c._id = chatId)

/-- `chat.save()`: persist the (modified) chat document under its `_id`. -/
def saveChat (chats : List Chat) (c : Chat) : List Chat :=
  chats.map (fun x => if x._id = c._id then c else x)

/-- `User.updateOne({_id: uid}, {$inc: {credits: -n}})`. -/
def decCredits (users : List User) (uid : String) (n : Int) : List User :=
  users.map (fun u => if u._id = uid then { u with credits := u.credits - n } else u)

/-- Credit balance of the user `uid`, when present. -/
def getCredits (users : List User) (uid : String) : Option Int :=
  (users.find? (fun u => u._id = uid)).map User.credits

/-- The uniform `{success:false, message}` failure body of the message
controllers. -/
def failBody (m : String) : JVal :=
  .obj [("success", .bool false), ("message", .str m)]

/-- JSON serialisation of a message (the `reply` field of a 200 body). -/
def msgJson (m : Msg) : JVal :=
  .obj ([("role", .str m.role), ("content", .str m.content),
         ("timestamp", .num (Int.ofNat m.timestamp)), ("isImage", .bool m.isImage)] ++
    (match m.isPublished with
     | none => []
     | some b => [("isPublished", .bool b)]))

/-- `textMessageController`.  `completionsCreate` models
`openai.chat.completions.create` applied to the prompt: `Except.ok cm` is
`choices[0].message`, `Except.error e` a thrown vendor error (caught by the
catch branch, which responds 500). -/
def textMessageController (db : DB) (req : Req) (now : Nat)
    (completionsCreate : String → Except String CMsg) : CtrlResult :=
  if req.userCredits < 1 then
    ⟨⟨402, failBody "You don\x27t have enough credits to use this feature"⟩, db, []⟩
  else if req.chatId = "" ∨ req.prompt = "" then
    ⟨⟨400, failBody "chatId and prompt are required"⟩, db, []⟩
  else
    match findChat db.chats req.userId req.chatId with
    | none => ⟨⟨404, failBody "Chat not found"⟩, db, [.chatLookup req.userId req.chatId]⟩
    | some chat =>
        let userMessage : Msg := ⟨"user", req.prompt, now, false, some true⟩
        let chat1 : Chat := { chat with messages := chat.messages ++ [userMessage] }
        match completionsCreate req.prompt with
        | .error e =>
            ⟨⟨500, failBody e⟩, db,
             [.chatLookup req.userId req.chatId, .extCall "openai" req.prompt]⟩
        | .ok cm =>
            let reply : Msg := ⟨cm.role, cm.content, now, false, none⟩
            let chat2 : Chat := { chat1 with messages := chat1.messages ++ [reply] }
            ⟨⟨200, .obj [("success", .bool true), ("reply", msgJson reply)]⟩,
             ⟨saveChat db.chats chat2, decCredits db.users req.userId 1⟩,
             [.chatLookup req.userId req.chatId, .extCall "openai" req.prompt,
              .chatSave chat2._id chat2.messages, .creditDec req.userId 1]⟩

/-- The ImageKit generation URL built from the endpoint, the encoded prompt
and the timestamp. -/
def genImageUrl (endpoint : String) (encodeURIComponent : String → String)
    (prompt : String) (now : Nat) : String :=
  endpoint ++ "/ik-genimg-prompt-" ++ encodeURIComponent prompt ++ "/quickgpt/" ++
    toString now ++ ".png?tr=w-800,h-800"

/-- The base64 data URL built from the fetched image bytes. -/
def dataUrl (toB64 : String → String) (bytes : String) : String :=
  "data:image/png;base64," ++ toB64 bytes

/-- `imageMessageController`.  `axiosGet` models the generation fetch,
`imagekitUpload` the media-library upload (file, fileName, folder); either
may throw (`Except.error`), which the catch branch turns into a 500. -/
def imageMessageController (db : DB) (req : Req) (now : Nat)
    (endpoint : String) (encodeURIComponent toB64 : String → String)
    (axiosGet : String → Except String String)
    (imagekitUpload : String → String → String → Except String String) : CtrlResult :=
  if req.userCredits < 2 then
    ⟨⟨402, failBody "You don\x27t have enough credits to use this feature"⟩, db, []⟩
  else if req.prompt = "" ∨ req.chatId = "" then
    ⟨⟨400, failBody "prompt and chatId are required"⟩, db, []⟩
  else
    match findChat db.chats req.userId req.chatId with
    | none => ⟨⟨404, failBody "Chat not found"⟩, db, [.chatLookup req.userId req.chatId]⟩
    | some chat =>
        let isPublished := req.isPublishedBody.getD true
        let userMessage : Msg := ⟨"user", req.prompt, now, false, some isPublished⟩
        let chat1 : Chat := { chat with messages := chat.messages ++ [userMessage] }
        let generatedImageUrl := genImageUrl endpoint encodeURIComponent req.prompt now
        match axiosGet generatedImageUrl with
        | .error e =>
            ⟨⟨500, failBody e⟩, db,
             [.chatLookup req.userId req.chatId, .extCall "axios" generatedImageUrl]⟩
        | .ok bytes =>
            let base64Image := dataUrl toB64 bytes
            match imagekitUpload base64Image (toString now ++ ".png") "quickgpt" with
            | .error e =>
                ⟨⟨500, failBody e⟩, db,
                 [.chatLookup req.userId req.chatId, .extCall "axios" generatedImageUrl,
                  .extCall "imagekitUpload" base64Image]⟩
            | .ok url =>
                let reply : Msg := ⟨"assistant", url, now, true, some isPublished⟩
                let chat2 : Chat := { chat1 with messages := chat1.messages ++ [reply] }
                ⟨⟨200, .obj [("success", .bool true), ("reply", msgJson reply)]⟩,
                 ⟨saveChat db.chats chat2, decCredits db.users req.userId 2⟩,
                 [.chatLookup req.userId req.chatId, .extCall "axios" generatedImageUrl,
                  .extCall "imagekitUpload" base64Image,
                  .chatSave chat2._id chat2.messages, .creditDec req.userId 2]⟩

/-- A successful `findChat` returns a chat owned by the requested user and
with the requested id. -/
theorem findChat_eq {chats : List Chat} {uid cid : String} {c : Chat}
    (h : findChat chats uid cid = some c) : c.userId = uid ∧ c._id = cid := by
  have hp := List.find?_some h
  simpa using hp

/-- Decrementing credits changes exactly the balance read back for that
user. -/
theorem getCredits_decCredits (users : List User) (uid : String) (n : Int) :
    getCredits (decCredits users uid n) uid = (getCredits users uid).map (fun c => c - n) := by
  induction users with
  | nil => rfl
  | cons u us ih =>
      by_cases h : u._id = uid
      · simp [getCredits, decCredits, List.find?, h]
      · unfold getCredits decCredits at ih ⊢
        simpa [List.find?, h] using ih

/-- After saving a chat whose `_id` and `userId` match a lookup that
previously succeeded, the lookup returns the saved chat. -/
theorem findChat_saveChat {chats : List Chat} {uid cid : String} {c c2 : Chat}
    (h : findChat chats uid cid = some c)
    (huid : c2.userId = uid) (hcid : c2._id = cid) :
    findChat (saveChat chats c2) uid cid = some c2 := by
  induction chats with
  | nil => simp [findChat, List.find?] at h
  | cons x xs ih =>
      by_cases hx : x._id = c2._id
      · simp [findChat, saveChat, List.find?, hx, huid, hcid]
      · have hxcid : ¬ x._id = cid := by rw [← hcid]; exact hx
        have h2 : findChat xs uid cid = some c := by
          unfold findChat at h
          simpa [List.find?, hxcid] using h
        have h3 := ih h2
        unfold findChat saveChat at h3 ⊢
        simpa [List.find?, hx, hxcid] using h3

/-- Explicit form of the text controller on the all-checks-pass path. -/
theorem textMessage_success_eq {db : DB} {req : Req} {now : Nat}
    {f : String → Except String CMsg} {chat : Chat} {cm : CMsg}
    (c1 : ¬ req.userCredits < 1) (c2 : ¬ (req.chatId = "" ∨ req.prompt = ""))
    (hf : findChat db.chats req.userId req.chatId = some chat)
    (hc : f req.prompt = Except.ok cm) :
    textMessageController db req now f =
      ⟨⟨200, .obj [("success", .bool true),
           ("reply", msgJson ⟨cm.role, cm.content, now, false, none⟩)]⟩,
       ⟨saveChat db.chats
          { chat with messages :=
              (chat.messages ++ [⟨"user", req.prompt, now, false, some true⟩]) ++
                [⟨cm.role, cm.content, now, false, none⟩] },
        decCredits db.users req.userId 1⟩,
       [.chatLookup req.userId req.chatId, .extCall "openai" req.prompt,
        .chatSave chat._id
          ((chat.messages ++ [⟨"user", req.prompt, now, false, some true⟩]) ++
            [⟨cm.role, cm.content, now, false, none⟩]),
        .creditDec req.userId 1]⟩ := by
  unfold textMessageController
  rw [if_neg c1, if_neg c2, hf, hc]

/-- Explicit form of the text controller when the completion call throws. -/
theorem textMessage_error_eq {db : DB} {req : Req} {now : Nat}
    {f : String → Except String CMsg} {chat : Chat} {e : String}
    (c1 : ¬ req.userCredits < 1) (c2 : ¬ (req.chatId = "" ∨ req.prompt = ""))
    (hf : findChat db.chats req.userId req.chatId = some chat)
    (hc : f req.prompt = Except.error e) :
    textMessageController db req now f =
      ⟨⟨500, failBody e⟩, db,
       [.chatLookup req.userId req.chatId, .extCall "openai" req.prompt]⟩ := by
  unfold textMessageController
  rw [if_neg c1, if_neg c2, hf, hc]

/-- Explicit form of the image controller on the all-checks-pass path. -/
theorem imageMessage_success_eq {db : DB} {req : Req} {now : Nat}
    {endpoint : String} {enc b64 : String → String}
    {ax : String → Except String String}
    {upl : String → String → String → Except String String}
    {chat : Chat} {bytes url : String}
    (c1 : ¬ req.userCredits < 2) (c2 : ¬ (req.prompt = "" ∨ req.chatId = ""))
    (hf : findChat db.chats req.userId req.chatId = some chat)
    (ha : ax (genImageUrl endpoint enc req.prompt now) = Except.ok bytes)
    (hu : upl (dataUrl b64 bytes) (toString now ++ ".png") "quickgpt" = Except.ok url) :
    imageMessageController db req now endpoint enc b64 ax upl =
      ⟨⟨200, .obj [("success", .bool true),
           ("reply", msgJson ⟨"assistant", url, now, true, some (req.isPublishedBody.getD true)⟩)]⟩,
       ⟨saveChat db.chats
          { chat with messages :=
              (chat.messages ++
                 [⟨"user", req.prompt, now, false, some (req.isPublishedBody.getD true)⟩]) ++
                [⟨"assistant", url, now, true, some (req.isPublishedBody.getD true)⟩] },
        decCredits db.users req.userId 2⟩,
       [.chatLookup req.userId req.chatId,
        .extCall "axios" (genImageUrl endpoint enc req.prompt now),
        .extCall "imagekitUpload" (dataUrl b64 bytes),
        .chatSave chat._id
          ((chat.messages ++
              [⟨"user", req.prompt, now, false, some (req.isPublishedBody.getD true)⟩]) ++
            [⟨"assistant", url, now, true, some (req.isPublishedBody.getD true)⟩]),
        .creditDec req.userId 2]⟩ := by
  simp only [imageMessageController, if_neg c1, if_neg c2, hf, ha, hu]

/-- Explicit form of the image controller when the generation fetch throws. -/
theorem imageMessage_axios_error_eq {db : DB} {req : Req} {now : Nat}
    {endpoint : String} {enc b64 : String → String}
    {ax : String → Except String String}
    {upl : String → String → String → Except String String}
    {chat : Chat} {e : String}
    (c1 : ¬ req.userCredits < 2) (c2 : ¬ (req.prompt = "" ∨ req.chatId = ""))
    (hf : findChat db.chats req.userId req.chatId = some chat)
    (ha : ax (genImageUrl endpoint enc req.prompt now) = Except.error e) :
    imageMessageController db req now endpoint enc b64 ax upl =
      ⟨⟨500, failBody e⟩, db,
       [.chatLookup req.userId req.chatId,
        .extCall "axios" (genImageUrl endpoint enc req.prompt now)]⟩ := by
  simp only [imageMessageController, if_neg c1, if_neg c2, hf, ha]

/-- Explicit form of the image controller when the upload throws. -/
theorem imageMessage_upload_error_eq {db : DB} {req : Req} {now : Nat}
    {endpoint : String} {enc b64 : String → String}
    {ax : String → Except String String}
    {upl : String → String → String → Except String String}
    {chat : Chat} {bytes e : String}
    (c1 : ¬ req.userCredits < 2) (c2 : ¬ (req.prompt = "" ∨ req.chatId = ""))
    (hf : findChat db.chats req.userId req.chatId = some chat)
    (ha : ax (genImageUrl endpoint enc req.prompt now) = Except.ok bytes)
    (hu : upl (dataUrl b64 bytes) (toString now ++ ".png") "quickgpt" = Except.error e) :
    imageMessageController db req now endpoint enc b64 ax upl =
      ⟨⟨500, failBody e⟩, db,
       [.chatLookup req.userId req.chatId,
        .extCall "axios" (genImageUrl endpoint enc req.prompt now),
        .extCall "imagekitUpload" (dataUrl b64 bytes)]⟩ := by
  simp only [imageMessageController, if_neg c1, if_neg c2, hf, ha, hu]

/-- A 200 from the text controller means every check passed and the
completion call returned. -/
theorem textMessage_status200 {db : DB} {req : Req} {now : Nat}
    {f : String → Except String CMsg}
    (h : (textMessageController db req now f).response.status = 200) :
    ¬ req.userCredits < 1 ∧ ¬ (req.chatId = "" ∨ req.prompt = "") ∧
      ∃ chat cm, findChat db.chats req.userId req.chatId = some chat ∧
        f req.prompt = Except.ok cm := by
  by_cases c1 : req.userCredits < 1
  · simp [textMessageController, c1] at h
  by_cases c2 : req.chatId = "" ∨ req.prompt = ""
  · simp [textMessageController, c1, c2] at h
  cases hf : findChat db.chats req.userId req.chatId with
  | none => simp [textMessageController, c1, c2, hf] at h
  | some chat =>
      cases hc : f req.prompt with
      | error e => simp [textMessageController, c1, c2, hf, hc] at h
      | ok cm =>
          refine ⟨c1, c2, chat, cm, ?_, ?_⟩ <;> first | assumption | rfl

/-- A 200 from the image controller means every check passed and both
external calls returned. -/
theorem imageMessage_status200 {db : DB} {req : Req} {now : Nat}
    {endpoint : String} {enc b64 : String → String}
    {ax : String → Except String String}
    {upl : String → String → String → Except String String}
    (h : (imageMessageController db req now endpoint enc b64 ax upl).response.status = 200) :
    ¬ req.userCredits < 2 ∧ ¬ (req.prompt = "" ∨ req.chatId = "") ∧
      ∃ chat bytes url, findChat db.chats req.userId req.chatId = some chat ∧
        ax (genImageUrl endpoint enc req.prompt now) = Except.ok bytes ∧
        upl (dataUrl b64 bytes) (toString now ++ ".png") "quickgpt" = Except.ok url := by
  by_cases c1 : req.userCredits < 2
  · simp [imageMessageController, c1] at h
  by_cases c2 : req.prompt = "" ∨ req.chatId = ""
  · simp [imageMessageController, c1, c2] at h
  cases hf : findChat db.chats req.userId req.chatId with
  | none => simp [imageMessageController, c1, c2, hf] at h
  | some chat =>
      cases ha : ax (genImageUrl endpoint enc req.prompt now) with
      | error e => simp [imageMessageController, c1, c2, hf, ha] at h
      | ok bytes =>
          cases hu : upl (dataUrl b64 bytes) (toString now ++ ".png") "quickgpt" with
          | error e => simp [imageMessageController, c1, c2, hf, ha, hu] at h
          | ok url =>
              refine ⟨c1, c2, chat, bytes, url, ?_, ?_, ?_⟩ <;> first | assumption | rfl

/-! ## Concrete fixtures used by witnesses and counterexamples -/

/-- A chat owned by user `u1` holding one old message. -/
def chat0 : Chat := ⟨"c1", "u1", [⟨"user", "old", 1, false, some true⟩]⟩

/-- A database with one chat and one user with 10 credits. -/
def db0 : DB := ⟨[chat0], [⟨"u1", 10⟩]⟩

/-- A well-formed request from `u1` for chat `c1`. -/
def req0 : Req := ⟨"u1", 10, "c1", "hi", none⟩

/-- A completion call that returns an assistant message. -/
def compOk : String → Except String CMsg := fun _ => Except.ok ⟨"assistant", "hello"⟩

/-- A completion call that throws. -/
def compErr : String → Except String CMsg := fun _ => Except.error "boom"

/-- A generation fetch that returns bytes. -/
def axOk : String → Except String String := fun _ => Except.ok "bytes"

/-- A generation fetch that throws. -/
def axErr : String → Except String String := fun _ => Except.error "down"

/-- An upload that returns a URL. -/
def uplOk : String → String → String → Except String String :=
  fun _ _ _ => Except.ok "https://ik.io/x.png"

/-- An upload that throws. -/
def uplErr : String → String → String → Except String String :=
  fun _ _ _ => Except.error "upfail"

/-- Identity stand-in for `encodeURIComponent` and base64 encoding. -/
def encId : String → String := fun s => s

/-! ## Claims C1, C2, C3, C8 -/

/-- C1: every successful text send decrements the requesting user by exactly
1 credit and every successful image send by exactly 2, in each case by a
single decrement performed after the chat save (the trace lists the save
strictly before the one credit decrement). -/
theorem message_credit_decrement (db : DB) (req : Req) (now : Nat)
    (f : String → Except String CMsg) (endpoint : String) (enc b64 : String → String)
    (ax : String → Except String String)
    (upl : String → String → String → Except String String) :
    ((textMessageController db req now f).response.status = 200 →
      getCredits (textMessageController db req now f).db.users req.userId =
          (getCredits db.users req.userId).map (fun c => c - 1) ∧
        ∃ ms, (textMessageController db req now f).events =
          [.chatLookup req.userId req.chatId, .extCall "openai" req.prompt,
           .chatSave req.chatId ms, .creditDec req.userId 1])
    ∧ ((imageMessageController db req now endpoint enc b64 ax upl).response.status = 200 →
      getCredits (imageMessageController db req now endpoint enc b64 ax upl).db.users req.userId =
          (getCredits db.users req.userId).map (fun c => c - 2) ∧
        ∃ u ms, (imageMessageController db req now endpoint enc b64 ax upl).events =
          [.chatLookup req.userId req.chatId,
           .extCall "axios" (genImageUrl endpoint enc req.prompt now),
           .extCall "imagekitUpload" u,
           .chatSave req.chatId ms, .creditDec req.userId 2]) := by
  constructor
  · intro h
    obtain ⟨c1, c2, chat, cm, hf, hc⟩ := textMessage_status200 h
    have hid := (findChat_eq hf).2
    rw [textMessage_success_eq c1 c2 hf hc]
    refine ⟨by simpa using getCredits_decCredits db.users req.userId 1, ?_⟩
    exact ⟨_, by rw [hid]⟩
  · intro h
    obtain ⟨c1, c2, chat, bytes, url, hf, ha, hu⟩ := imageMessage_status200 h
    have hid := (findChat_eq hf).2
    rw [imageMessage_success_eq c1 c2 hf ha hu]
    refine ⟨by simpa using getCredits_decCredits db.users req.userId 2, ?_⟩
    exact ⟨_, _, by rw [hid]⟩

/-- Witness for C1: the concrete successful text send debits one credit. -/
theorem message_credit_decrement_witness :
    getCredits (textMessageController db0 req0 5 compOk).db.users "u1" =
      (getCredits db0.users "u1").map (fun c => c - 1) :=
  ((message_credit_decrement db0 req0 5 compOk "" encId encId axOk uplOk).1 (by decide)).1

/-- C2: with an insufficient balance (below 1 for text, below 2 for image)
the controller answers 402 with `success:false` and does nothing else: the
database is returned unchanged and the trace is empty. -/
theorem insufficient_credits_blocks (db : DB) (req : Req) (now : Nat)
    (f : String → Except String CMsg) (endpoint : String) (enc b64 : String → String)
    (ax : String → Except String String)
    (upl : String → String → String → Except String String) :
    (req.userCredits < 1 →
      textMessageController db req now f =
        ⟨⟨402, failBody "You don\x27t have enough credits to use this feature"⟩, db, []⟩)
    ∧ (req.userCredits < 2 →
      imageMessageController db req now endpoint enc b64 ax upl =
        ⟨⟨402, failBody "You don\x27t have enough credits to use this feature"⟩, db, []⟩) := by
  constructor
  · intro h
    unfold textMessageController
    rw [if_pos h]
  · intro h
    unfold imageMessageController
    rw [if_pos h]

/-- Witness for C2: a zero-credit request is refused with 402. -/
theorem insufficient_credits_blocks_witness :
    textMessageController db0 ⟨"u1", 0, "c1", "hi", none⟩ 5 compOk =
      ⟨⟨402, failBody "You don\x27t have enough credits to use this feature"⟩, db0, []⟩ :=
  (insufficient_credits_blocks db0 ⟨"u1", 0, "c1", "hi", none⟩ 5 compOk "" encId encId
    axOk uplOk).1 (by decide)

/-- C3: a successful send appends exactly two messages at the end of the
chat, the user message carrying the request prompt first and the assistant
reply second, leaves the earlier messages in place, and persists both in a
single chat save. -/
theorem message_append_order (db : DB) (req : Req) (now : Nat)
    (f : String → Except String CMsg) (endpoint : String) (enc b64 : String → String)
    (ax : String → Except String String)
    (upl : String → String → String → Except String String) :
    (∀ chat cm, ¬ req.userCredits < 1 → ¬ (req.chatId = "" ∨ req.prompt = "") →
      findChat db.chats req.userId req.chatId = some chat →
      f req.prompt = Except.ok cm →
      (textMessageController db req now f).response.status = 200 ∧
      (textMessageController db req now f).events.filterMap
          (fun ev => match ev with
           | Event.chatSave cid ms => some (cid, ms)
           | _ => none) =
        [(req.chatId,
          (chat.messages ++ [⟨"user", req.prompt, now, false, some true⟩]) ++
            [⟨cm.role, cm.content, now, false, none⟩])] ∧
      findChat (textMessageController db req now f).db.chats req.userId req.chatId =
        some { chat with messages :=
          (chat.messages ++ [⟨"user", req.prompt, now, false, some true⟩]) ++
            [⟨cm.role, cm.content, now, false, none⟩] })
    ∧ (∀ chat bytes url, ¬ req.userCredits < 2 → ¬ (req.prompt = "" ∨ req.chatId = "") →
      findChat db.chats req.userId req.chatId = some chat →
      ax (genImageUrl endpoint enc req.prompt now) = Except.ok bytes →
      upl (dataUrl b64 bytes) (toString now ++ ".png") "quickgpt" = Except.ok url →
      (imageMessageController db req now endpoint enc b64 ax upl).response.status = 200 ∧
      (imageMessageController db req now endpoint enc b64 ax upl).events.filterMap
          (fun ev => match ev with
           | Event.chatSave cid ms => some (cid, ms)
           | _ => none) =
        [(req.chatId,
          (chat.messages ++
             [⟨"user", req.prompt, now, false, some (req.isPublishedBody.getD true)⟩]) ++
            [⟨"assistant", url, now, true, some (req.isPublishedBody.getD true)⟩])] ∧
      findChat (imageMessageController db req now endpoint enc b64 ax upl).db.chats
          req.userId req.chatId =
        some { chat with messages :=
          (chat.messages ++
             [⟨"user", req.prompt, now, false, some (req.isPublishedBody.getD true)⟩]) ++
            [⟨"assistant", url, now, true, some (req.isPublishedBody.getD true)⟩] }) := by
  constructor
  · intro chat cm c1 c2 hf hc
    have he := findChat_eq hf
    rw [textMessage_success_eq c1 c2 hf hc]
    refine ⟨rfl, by simp [he.2], ?_⟩
    exact findChat_saveChat hf he.1 he.2
  · intro chat bytes url c1 c2 hf ha hu
    have he := findChat_eq hf
    rw [imageMessage_success_eq c1 c2 hf ha hu]
    refine ⟨rfl, by simp [he.2], ?_⟩
    exact findChat_saveChat hf he.1 he.2

/-- Witness for C3: the concrete send persists old message, then prompt,
then reply. -/
theorem message_append_order_witness :
    findChat (textMessageController db0 req0 5 compOk).db.chats "u1" "c1" =
      some { chat0 with messages :=
        (chat0.messages ++ [⟨"user", "hi", 5, false, some true⟩]) ++
          [⟨"assistant", "hello", 5, false, none⟩] } :=
  ((message_append_order db0 req0 5 compOk "" encId encId axOk uplOk).1 chat0
    ⟨"assistant", "hello"⟩ (by decide) (by decide) (by decide) rfl).2.2

/-- C8: when the external completion call (text) or the generation fetch or
upload (image) throws, the controller answers 500 with `success:false` and
the persisted state is untouched: the database comes back unchanged, the
trace holds no save and no credit decrement. -/
theorem external_failure_500 (db : DB) (req : Req) (now : Nat)
    (endpoint : String) (enc b64 : String → String) :
    (∀ (f : String → Except String CMsg) chat e, ¬ req.userCredits < 1 →
      ¬ (req.chatId = "" ∨ req.prompt = "") →
      findChat db.chats req.userId req.chatId = some chat →
      f req.prompt = Except.error e →
      textMessageController db req now f =
        ⟨⟨500, failBody e⟩, db,
         [.chatLookup req.userId req.chatId, .extCall "openai" req.prompt]⟩)
    ∧ (∀ (ax : String → Except String String)
        (upl : String → String → String → Except String String) chat e,
      ¬ req.userCredits < 2 → ¬ (req.prompt = "" ∨ req.chatId = "") →
      findChat db.chats req.userId req.chatId = some chat →
      ax (genImageUrl endpoint enc req.prompt now) = Except.error e →
      imageMessageController db req now endpoint enc b64 ax upl =
        ⟨⟨500, failBody e⟩, db,
         [.chatLookup req.userId req.chatId,
          .extCall "axios" (genImageUrl endpoint enc req.prompt now)]⟩)
    ∧ (∀ (ax : String → Except String String)
        (upl : String → String → String → Except String String) chat bytes e,
      ¬ req.userCredits < 2 → ¬ (req.prompt = "" ∨ req.chatId = "") →
      findChat db.chats req.userId req.chatId = some chat →
      ax (genImageUrl endpoint enc req.prompt now) = Except.ok bytes →
      upl (dataUrl b64 bytes) (toString now ++ ".png") "quickgpt" = Except.error e →
      imageMessageController db req now endpoint enc b64 ax upl =
        ⟨⟨500, failBody e⟩, db,
         [.chatLookup req.userId req.chatId,
          .extCall "axios" (genImageUrl endpoint enc req.prompt now),
          .extCall "imagekitUpload" (dataUrl b64 bytes)]⟩) := by
  refine ⟨?_, ?_, ?_⟩
  · intro f chat e c1 c2 hf hc
    exact textMessage_error_eq c1 c2 hf hc
  · intro ax upl chat e c1 c2 hf ha
    exact imageMessage_axios_error_eq c1 c2 hf ha
  · intro ax upl chat bytes e c1 c2 hf ha hu
    exact imageMessage_upload_error_eq c1 c2 hf ha hu

/-- Witness for C8: a throwing completion call yields a 500 and leaves the
database unchanged. -/
theorem external_failure_500_witness :
    textMessageController db0 req0 5 compErr =
      ⟨⟨500, failBody "boom"⟩, db0, [.chatLookup "u1" "c1", .extCall "openai" "hi"]⟩ :=
  (external_failure_500 db0 req0 5 "" encId encId).1 compErr chat0 "boom"
    (by decide) (by decide) (by decide) rfl

/-! ## Claims C4 and C5 (corrected: the credit check runs first) -/

/-- C4 counterexample: a request whose chatId matches no chat of the user is
answered 402, not 404, when the balance is insufficient, because the credit
check runs before the lookup. -/
theorem chat_not_found_counterexample :
    findChat db0.chats "u1" "nochat" = none ∧
    (textMessageController db0 ⟨"u1", 0, "nochat", "hi", none⟩ 5 compOk).response.status = 402 ∧
    ¬ (textMessageController db0 ⟨"u1", 0, "nochat", "hi", none⟩ 5 compOk).response.status
        = 404 := by
  refine ⟨rfl, rfl, by decide⟩

/-- C4 (amended): provided the balance passes the credit check and chatId
and prompt are non-empty, a chatId matching no chat of the requesting user
is answered 404 with `success:false`, the database is unchanged and the
trace holds only the lookup: nothing is appended, no external API is called
and no credits move. -/
theorem chat_not_found_404 (db : DB) (req : Req) (now : Nat)
    (f : String → Except String CMsg) (endpoint : String) (enc b64 : String → String)
    (ax : String → Except String String)
    (upl : String → String → String → Except String String)
    (h4 : findChat db.chats req.userId req.chatId = none) :
    (¬ req.userCredits < 1 → ¬ (req.chatId = "" ∨ req.prompt = "") →
      textMessageController db req now f =
        ⟨⟨404, failBody "Chat not found"⟩, db, [.chatLookup req.userId req.chatId]⟩)
    ∧ (¬ req.userCredits < 2 → ¬ (req.prompt = "" ∨ req.chatId = "") →
      imageMessageController db req now endpoint enc b64 ax upl =
        ⟨⟨404, failBody "Chat not found"⟩, db, [.chatLookup req.userId req.chatId]⟩) := by
  constructor
  · intro c1 c2
    unfold textMessageController
    rw [if_neg c1, if_neg c2, h4]
  · intro c1 c2
    unfold imageMessageController
    rw [if_neg c1, if_neg c2, h4]

/-- Witness for the amended C4. -/
theorem chat_not_found_404_witness :
    textMessageController db0 ⟨"u1", 5, "nochat", "hi", none⟩ 5 compOk =
      ⟨⟨404, failBody "Chat not found"⟩, db0, [.chatLookup "u1" "nochat"]⟩ :=
  (chat_not_found_404 db0 ⟨"u1", 5, "nochat", "hi", none⟩ 5 compOk "" encId encId axOk uplOk
    (by decide)).1 (by decide) (by decide)

/-- C5 counterexample: a request with a missing chatId is answered 402, not
400, when the balance is insufficient, because the credit check runs before
the body check. -/
theorem missing_fields_counterexample :
    (Req.chatId ⟨"u1", 0, "", "hi", none⟩ = "") ∧
    (textMessageController db0 ⟨"u1", 0, "", "hi", none⟩ 5 compOk).response.status = 402 ∧
    ¬ (textMessageController db0 ⟨"u1", 0, "", "hi", none⟩ 5 compOk).response.status
        = 400 := by
  refine ⟨rfl, rfl, by decide⟩

/-- C5 (amended): provided the balance passes the credit check, a request
with a missing or empty chatId or prompt is answered 400 with
`success:false` before anything else happens: the database is unchanged and
the trace is empty, so no lookup, append, external call or decrement took
place. -/
theorem missing_fields_400 (db : DB) (req : Req) (now : Nat)
    (f : String → Except String CMsg) (endpoint : String) (enc b64 : String → String)
    (ax : String → Except String String)
    (upl : String → String → String → Except String String) :
    (¬ req.userCredits < 1 → (req.chatId = "" ∨ req.prompt = "") →
      textMessageController db req now f =
        ⟨⟨400, failBody "chatId and prompt are required"⟩, db, []⟩)
    ∧ (¬ req.userCredits < 2 → (req.prompt = "" ∨ req.chatId = "") →
      imageMessageController db req now endpoint enc b64 ax upl =
        ⟨⟨400, failBody "prompt and chatId are required"⟩, db, []⟩) := by
  constructor
  · intro c1 c2
    unfold textMessageController
    rw [if_neg c1, if_pos c2]
  · intro c1 c2
    unfold imageMessageController
    rw [if_neg c1, if_pos c2]

/-- Witness for the amended C5. -/
theorem missing_fields_400_witness :
    textMessageController db0 ⟨"u1", 5, "", "hi", none⟩ 5 compOk =
      ⟨⟨400, failBody "chatId and prompt are required"⟩, db0, []⟩ :=
  (missing_fields_400 db0 ⟨"u1", 5, "", "hi", none⟩ 5 compOk "" encId encId axOk uplOk).1
    (by decide) (Or.inl rfl)

/-! ## ChatBox.jsx suggestion matching

Strings handled by the client are modelled as `List Char`.  `isWs` models
the regex class `\s` (ASCII), `isWordChar` the class `\w`, `lowerChar`
ASCII `toLowerCase`, and `kwMatch kw cs` the regex test
`^kw\b` against `cs`; `kwTest kw t` adds the leading `\s*`. -/

/-- Whitespace, as matched by `\s` (ASCII part). -/
def isWs (c : Char) : Bool :=
  c = ' ' || c = '\t' || c = '\n' || c = '\r' || c = '\x0b' || c = '\x0c'

/-- Word characters, as matched by `\w`. -/
def isWordChar (c : Char) : Bool := c.isAlpha || c.isDigit || c = '_'

/-- ASCII lowercasing of one character, as `toLowerCase` does on ASCII. -/
def lowerChar (c : Char) : Char :=
  if 'A' ≤ c ∧ c ≤ 'Z' then Char.ofNat (c.toNat + 32) else c

/-- `text.toLowerCase()`. -/
def lowerStr (cs : List Char) : List Char := cs.map lowerChar

/-- Drop the leading `\s*`. -/
def wsDrop (cs : List Char) : List Char := cs.dropWhile isWs

/-- `text.trim()`. -/
def wsTrim (cs : List Char) : List Char := ((wsDrop cs).reverse.dropWhile isWs).reverse

/-- The word boundary `\b` after a keyword: end of input or a non-word
character. -/
def noWordStart (cs : List Char) : Bool :=
  match cs with
  | [] => true
  | c :: _ => !isWordChar c

/-- Match the literal keyword followed by `\b`. -/
def kwMatch : List Char → List Char → Bool
  | [], rest => noWordStart rest
  | _ :: _, [] => false
  | k :: ks, c :: cs => k = c && kwMatch ks cs

/-- The test `/^\s*kw\b/.test(t)`. -/
def kwTest (kw : String) (t : List Char) : Bool := kwMatch kw.data (wsDrop t)

/-- A suggestion preset of `ChatBox.jsx`. -/
structure Suggestion where
  id : String
  tool : String
  title : String
  desc : String
  build : String → String

/-- The `SUGGESTIONS` preset list. -/
def SUGGESTIONS : List Suggestion :=
  [ ⟨"summ-4-bullets", "summarizer", "Summarize in 4 lines (bullets)",
      "Short summary in 4 bullet lines",
      fun text =>
        "Summarize the following text in 4 concise lines. Output as bullet points:\n\n" ++ text⟩,
    ⟨"summ-1-line", "summarizer", "Summarize in 1 line",
      "Very concise single line summary",
      fun text => "Summarize the following text in 1 concise line:\n\n" ++ text⟩,
    ⟨"summ-short-paragraph", "summarizer", "Short summary (paragraph)",
      "Brief paragraph summary",
      fun text =>
        "Summarize the following text (short) and present it in paragraph form:\n\n" ++ text⟩,
    ⟨"para-formal", "paraphrase", "Paraphrase — Formal",
      "Rewrite text in a formal style",
      fun text =>
        "Reword the following text in a Formal style while preserving the original meaning. Output only the rewritten text:\n\n" ++ text⟩,
    ⟨"para-simple", "paraphrase", "Paraphrase — Simple",
      "Make text simpler and clearer",
      fun text =>
        "Reword the following text in a Simple style while preserving meaning. Output only the rewritten text:\n\n" ++ text⟩,
    ⟨"grammar-check", "grammar", "Grammar & Spell Check",
      "Detect mistakes and show corrections + explanations",
      fun text =>
        "Check the following text for grammar, spelling, and punctuation mistakes. Provide corrections and brief explanations for each correction. Show before and after comparison:\n\n" ++ text⟩,
    ⟨"expand-article", "expander", "Expand into Article",
      "Turn a short idea into a full article",
      fun text =>
        "Expand the following short text into a full Article. Keep structure coherent and add relevant details:\n\n" ++ text⟩,
    ⟨"rewrite-casual", "tone", "Rewrite — Casual",
      "Make the text casual and friendly",
      fun text =>
        "Rewrite the following text in a Casual tone while retaining the original meaning. Output only the rewritten text:\n\n" ++ text⟩,
    ⟨"explain-age10", "explain", "Explain for age 10",
      "Explain the content for a 10-year-old",
      fun text =>
        "Explain the following content for a child (age 10). Use simple language and examples appropriate for that age:\n\n" ++ text⟩ ]

/-- `hay.includes(needle)` on character lists. -/
def containsSub (needle : List Char) : List Char → Bool
  | [] => needle.isEmpty
  | c :: cs => needle.isPrefixOf (c :: cs) || containsSub needle cs

/-- `t.split(/\s+/).filter(Boolean)`. -/
def splitWs (cs : List Char) : List (List Char) :=
  (cs.foldr
    (fun c acc =>
      if isWs c then [] :: acc
      else
        match acc with
        | [] => [[c]]
        | w :: ws => (c :: w) :: ws)
    []).filter (fun w => !w.isEmpty)

/-- Number of typed keywords appearing in a suggestion title or
description. -/
def sugScore (keywords : List (List Char)) (s : Suggestion) : Nat :=
  let hay := lowerStr (s.title ++ " " ++ s.desc).data
  keywords.foldl (fun acc k => acc + (if containsSub k hay then 1 else 0)) 0

/-- Stable insertion into a list sorted by descending score. -/
def insertDesc (x : Suggestion × Nat) : List (Suggestion × Nat) → List (Suggestion × Nat)
  | [] => [x]
  | y :: ys => if x.2 < y.2 then y :: insertDesc x ys else x :: y :: ys

/-- Stable sort by descending score, modelling the stable JS
`sort((a, b) => b.score - a.score)`. -/
def sortDesc : List (Suggestion × Nat) → List (Suggestion × Nat)
  | [] => []
  | x :: xs => insertDesc x (sortDesc xs)

/-- The fallback ranking of `computeSuggestions`. -/
def ranked (t : List Char) : List Suggestion :=
  let keywords := splitWs t
  (sortDesc (SUGGESTIONS.map (fun s => (s, sugScore keywords s)))).map Prod.fst

/-- `computeSuggestions` of `ChatBox.jsx`. -/
def computeSuggestions (text : List Char) : List Suggestion :=
  if (wsTrim text).length = 0 then []
  else
    let t := lowerStr text
    if kwTest "summarize" t then SUGGESTIONS.filter (fun s => s.tool = "summarizer")
    else if kwTest "paraphrase" t || kwTest "rewrite" t then
      SUGGESTIONS.filter (fun s => s.tool = "paraphrase")
    else if kwTest "grammar" t || kwTest "check" t || kwTest "correct" t then
      SUGGESTIONS.filter (fun s => s.tool = "grammar")
    else if kwTest "expand" t || kwTest "expand to" t || kwTest "expand into" t then
      SUGGESTIONS.filter (fun s => s.tool = "expander")
    else if kwTest "rewrite in" t || kwTest "tone" t || kwTest "rewrite" t then
      SUGGESTIONS.filter (fun s => s.tool = "tone")
    else if kwTest "explain" t then SUGGESTIONS.filter (fun s => s.tool = "explain")
    else ranked t

/-- Lowercasing keeps whitespace whitespace. -/
theorem lowerChar_ws {c : Char} (h : isWs c = true) : isWs (lowerChar c) = true := by
  unfold isWs at h
  simp only [Bool.or_eq_true, decide_eq_true_eq] at h
  rcases h with ((((h | h) | h) | h) | h) | h <;> subst h <;> decide

/-- A whitespace-only input stays whitespace-only after lowercasing. -/
theorem wsDrop_lower_all {cs : List Char} (h : cs.all isWs = true) :
    wsDrop (lowerStr cs) = [] := by
  induction cs with
  | nil => rfl
  | cons c cs ih =>
      simp only [List.all_cons, Bool.and_eq_true] at h
      have hl := lowerChar_ws h.1
      unfold wsDrop lowerStr at ih ⊢
      simp [List.dropWhile_cons, hl, ih h.2]

/-- An input whose trim is empty is whitespace-only. -/
theorem wsTrim_nil_all {cs : List Char} (h : (wsTrim cs).length = 0) :
    cs.all isWs = true := by
  unfold wsTrim at h
  rw [List.length_eq_zero, List.reverse_eq_nil_iff, List.dropWhile_eq_nil_iff] at h
  rw [List.all_eq_true]
  intro x hx
  rw [← List.takeWhile_append_dropWhile (p := isWs) (l := cs), List.mem_append] at hx
  rcases hx with hx | hx
  · exact List.mem_takeWhile_imp hx
  · exact h x (List.mem_reverse.mpr hx)

/-- A whitespace-only input has an empty trim. -/
theorem wsTrim_all_nil {cs : List Char} (h : cs.all isWs = true) : wsTrim cs = [] := by
  unfold wsTrim
  have h1 : wsDrop cs = [] := by
    unfold wsDrop
    rw [List.dropWhile_eq_nil_iff]
    intro x hx
    exact (List.all_eq_true.mp h) x hx
  rw [h1]
  rfl

/-- A keyword matches itself followed by anything, up to the boundary
test. -/
theorem kwMatch_self (kw r : List Char) : kwMatch kw (kw ++ r) = noWordStart r := by
  induction kw with
  | nil => rfl
  | cons k ks ih => simp [kwMatch, ih]

/-- An input starting (after lowercasing and whitespace) with a keyword is
not whitespace-only. -/
theorem kw_not_ws {text r : List Char} {kw : String} (hk : kw.data ≠ [])
    (hr : wsDrop (lowerStr text) = kw.data ++ r) :
    ¬ (wsTrim text).length = 0 := by
  intro h0
  have hnil := wsDrop_lower_all (wsTrim_nil_all h0)
  rw [hr] at hnil
  exact hk (List.append_eq_nil.mp hnil).1

/-- A keyword test against an input of known decomposition. -/
theorem kwTest_of_decomp {text r : List Char} {kw kw2 : String}
    (hr : wsDrop (lowerStr text) = kw2.data ++ r) :
    kwTest kw (lowerStr text) = kwMatch kw.data (kw2.data ++ r) := by
  unfold kwTest
  rw [hr]

/-- C9: `computeSuggestions` returns the empty list on every empty or
whitespace-only input, and on every input whose first word, lowercased, is
one of the six tool commands it returns exactly the presets whose `tool`
field is the command tool: summarize, paraphrase, grammar, expand, tone and
explain select `summarizer`, `paraphrase`, `grammar`, `expander`, `tone`
and `explain` respectively.  The first word being the keyword is expressed
by the input decomposing, after lowercasing and leading whitespace, into
the keyword followed by a word boundary. -/
theorem computeSuggestions_keyword (text : List Char) :
    (text.all isWs = true → computeSuggestions text = [])
    ∧ (∀ r, wsDrop (lowerStr text) = "summarize".data ++ r → noWordStart r = true →
        computeSuggestions text = SUGGESTIONS.filter (fun s => s.tool = "summarizer"))
    ∧ (∀ r, wsDrop (lowerStr text) = "paraphrase".data ++ r → noWordStart r = true →
        computeSuggestions text = SUGGESTIONS.filter (fun s => s.tool = "paraphrase"))
    ∧ (∀ r, wsDrop (lowerStr text) = "grammar".data ++ r → noWordStart r = true →
        computeSuggestions text = SUGGESTIONS.filter (fun s => s.tool = "grammar"))
    ∧ (∀ r, wsDrop (lowerStr text) = "expand".data ++ r → noWordStart r = true →
        computeSuggestions text = SUGGESTIONS.filter (fun s => s.tool = "expander"))
    ∧ (∀ r, wsDrop (lowerStr text) = "tone".data ++ r → noWordStart r = true →
        computeSuggestions text = SUGGESTIONS.filter (fun s => s.tool = "tone"))
    ∧ (∀ r, wsDrop (lowerStr text) = "explain".data ++ r → noWordStart r = true →
        computeSuggestions text = SUGGESTIONS.filter (fun s => s.tool = "explain")) := by
  refine ⟨?_, ?_, ?_, ?_, ?_, ?_, ?_⟩
  · intro h
    unfold computeSuggestions
    rw [wsTrim_all_nil h]
    rfl
  · intro r hr hb
    have hne := kw_not_ws (by decide) hr
    have g1 : kwTest "summarize" (lowerStr text) = true := by
      rw [kwTest_of_decomp hr, kwMatch_self, hb]
    simp [computeSuggestions, hne, g1]
  · intro r hr hb
    have hne := kw_not_ws (by decide) hr
    have g1 : kwTest "summarize" (lowerStr text) = false := by
      rw [kwTest_of_decomp hr]
      exact rfl
    have g2 : kwTest "paraphrase" (lowerStr text) = true := by
      rw [kwTest_of_decomp hr, kwMatch_self, hb]
    simp [computeSuggestions, hne, g1, g2]
  · intro r hr hb
    have hne := kw_not_ws (by decide) hr
    have g1 : kwTest "summarize" (lowerStr text) = false := by
      rw [kwTest_of_decomp hr]
      exact rfl
    have g2 : kwTest "paraphrase" (lowerStr text) = false := by
      rw [kwTest_of_decomp hr]
      exact rfl
    have g3 : kwTest "rewrite" (lowerStr text) = false := by
      rw [kwTest_of_decomp hr]
      exact rfl
    have g4 : kwTest "grammar" (lowerStr text) = true := by
      rw [kwTest_of_decomp hr, kwMatch_self, hb]
    simp [computeSuggestions, hne, g1, g2, g3, g4]
  · intro r hr hb
    have hne := kw_not_ws (by decide) hr
    have g1 : kwTest "summarize" (lowerStr text) = false := by
      rw [kwTest_of_decomp hr]
      exact rfl
    have g2 : kwTest "paraphrase" (lowerStr text) = false := by
      rw [kwTest_of_decomp hr]
      exact rfl
    have g3 : kwTest "rewrite" (lowerStr text) = false := by
      rw [kwTest_of_decomp hr]
      exact rfl
    have g4 : kwTest "grammar" (lowerStr text) = false := by
      rw [kwTest_of_decomp hr]
      exact rfl
    have g5 : kwTest "check" (lowerStr text) = false := by
      rw [kwTest_of_decomp hr]
      exact rfl
    have g6 : kwTest "correct" (lowerStr text) = false := by
      rw [kwTest_of_decomp hr]
      exact rfl
    have g7 : kwTest "expand" (lowerStr text) = true := by
      rw [kwTest_of_decomp hr, kwMatch_self, hb]
    simp [computeSuggestions, hne, g1, g2, g3, g4, g5, g6, g7]
  · intro r hr hb
    have hne := kw_not_ws (by decide) hr
    have g1 : kwTest "summarize" (lowerStr text) = false := by
      rw [kwTest_of_decomp hr]
      exact rfl
    have g2 : kwTest "paraphrase" (lowerStr text) = false := by
      rw [kwTest_of_decomp hr]
      exact rfl
    have g3 : kwTest "rewrite" (lowerStr text) = false := by
      rw [kwTest_of_decomp hr]
      exact rfl
    have g4 : kwTest "grammar" (lowerStr text) = false := by
      rw [kwTest_of_decomp hr]
      exact rfl
    have g5 : kwTest "check" (lowerStr text) = false := by
      rw [kwTest_of_decomp hr]
      exact rfl
    have g6 : kwTest "correct" (lowerStr text) = false := by
      rw [kwTest_of_decomp hr]
      exact rfl
    have g7 : kwTest "expand" (lowerStr text) = false := by
      rw [kwTest_of_decomp hr]
      exact rfl
    have g8 : kwTest "expand to" (lowerStr text) = false := by
      rw [kwTest_of_decomp hr]
      exact rfl
    have g9 : kwTest "expand into" (lowerStr text) = false := by
      rw [kwTest_of_decomp hr]
      exact rfl
    have g10 : kwTest "rewrite in" (lowerStr text) = false := by
      rw [kwTest_of_decomp hr]
      exact rfl
    have g11 : kwTest "tone" (lowerStr text) = true := by
      rw [kwTest_of_decomp hr, kwMatch_self, hb]
    simp [computeSuggestions, hne, g1, g2, g3, g4, g5, g6, g7, g8, g9, g10, g11]
  · intro r hr hb
    have hne := kw_not_ws (by decide) hr
    have g1 : kwTest "summarize" (lowerStr text) = false := by
      rw [kwTest_of_decomp hr]
      exact rfl
    have g2 : kwTest "paraphrase" (lowerStr text) = false := by
      rw [kwTest_of_decomp hr]
      exact rfl
    have g3 : kwTest "rewrite" (lowerStr text) = false := by
      rw [kwTest_of_decomp hr]
      exact rfl
    have g4 : kwTest "grammar" (lowerStr text) = false := by
      rw [kwTest_of_decomp hr]
      exact rfl
    have g5 : kwTest "check" (lowerStr text) = false := by
      rw [kwTest_of_decomp hr]
      exact rfl
    have g6 : kwTest "correct" (lowerStr text) = false := by
      rw [kwTest_of_decomp hr]
      exact rfl
    have g7 : kwTest "expand" (lowerStr text) = false := by
      rw [kwTest_of_decomp hr]
      exact rfl
    have g8 : kwTest "expand to" (lowerStr text) = false := by
      rw [kwTest_of_decomp hr]
      exact rfl
    have g9 : kwTest "expand into" (lowerStr text) = false := by
      rw [kwTest_of_decomp hr]
      exact rfl
    have g10 : kwTest "rewrite in" (lowerStr text) = false := by
      rw [kwTest_of_decomp hr]
      exact rfl
    have g11 : kwTest "tone" (lowerStr text) = false := by
      rw [kwTest_of_decomp hr]
      exact rfl
    have g12 : kwTest "explain" (lowerStr text) = true := by
      rw [kwTest_of_decomp hr, kwMatch_self, hb]
    simp [computeSuggestions, hne, g1, g2, g3, g4, g5, g6, g7, g8, g9, g10, g11, g12]

/-- Witness for C9: a whitespace-only input and a concrete explain command. -/
theorem computeSuggestions_keyword_witness :
    computeSuggestions " ".data = [] ∧
    computeSuggestions "Explain gravity".data =
      SUGGESTIONS.filter (fun s => s.tool = "explain") :=
  ⟨(computeSuggestions_keyword " ".data).1 (by decide),
   (computeSuggestions_keyword "Explain gravity".data).2.2.2.2.2.2 " gravity".data
     (by decide) (by decide)⟩

/-- C6 (divergence witness): the credit controller spells the key `sucess`
instead of `success` in its failure responses, so the invalid-plan response
and the catch response carry no `success` key at all, and neither does the
`getPlans` body. -/
theorem creditController_sucess_key :
    ((purchasePlan "u1" "gold" none).fst.map
        (fun r => (hasKey "success" r.body, hasKey "sucess" r.body)) = some (false, true))
    ∧ ((purchasePlan "u1" "basic" (some "boom")).fst.map
        (fun r => (hasKey "success" r.body, hasKey "sucess" r.body)) = some (false, true))
    ∧ hasKey "success" getPlans.body = false := by
  refine ⟨rfl, rfl, rfl⟩

end QuickGPT
